import Mathlib

/-!
Shallow embedding of the WebSocket connection routine from
`dev/restinio/impl/ws_connection.hpp`: the outgoing-buffer queue
`ws_outgoing_data_t` and the write/close path of `ws_connection_t`
(`write_data_impl`, `init_write_if_necessary`, `after_write`,
`graceful_close`, `close_impl`, `trigger_error_and_close`,
`call_close_handler`), together with the raw output context they use.

Buffer groups are abstracted as natural numbers, so `buffers_container_t`
becomes `List Nat`.  Observable side effects — socket writes, log entries,
close-handler invocations, socket shutdown/close, and the `assert` in
`ws_outgoing_data_t::append` — are recorded as an explicit event trace.
-/

namespace WsConnection

/-- Observable events of the connection code. -/
inductive Event where
  | socket_write (bufs : List Nat)
  | log_trace
  | log_warn
  | log_error
  | close_handler_called (reason : String)
  | socket_shutdown
  | socket_close
  | assert_failed
  deriving DecidableEq, Repr

/-- `ws_outgoing_data_t`: the queue of pending outgoing buffer groups plus
the close-when-done flag. -/
structure ws_outgoing_data_t where
  m_close_when_done : Bool
  m_awaiting_buffers : List Nat
  deriving DecidableEq, Repr

/-- `ws_outgoing_data_t::append`.  The C++ code asserts
`!m_close_when_done` and then appends; the assertion is recorded as an
`assert_failed` event when its condition is violated.  The source has two
branches: adopt the incoming container when the queue is empty, otherwise
concatenate after the existing elements. -/
def ws_outgoing_data_t.append (q : ws_outgoing_data_t) (bufs : List Nat) :
    ws_outgoing_data_t × List Event :=
  ( if q.m_awaiting_buffers.isEmpty then
      { q with m_awaiting_buffers := bufs }
    else
      { q with m_awaiting_buffers := q.m_awaiting_buffers ++ bufs },
    if q.m_close_when_done then [Event.assert_failed] else [] )

/-- `ws_outgoing_data_t::pop_ready_buffers`: when `max_buf_count` covers
the whole queue, the internal container is move-assigned into `bufs`
(overwriting whatever `bufs` held, and leaving the queue empty);
otherwise the first `max_buf_count` groups are emplaced at the back of
`bufs` and erased from the queue. -/
def ws_outgoing_data_t.pop_ready_buffers (q : ws_outgoing_data_t)
    (max_buf_count : Nat) (bufs : List Nat) :
    ws_outgoing_data_t × List Nat :=
  if q.m_awaiting_buffers.length ≤ max_buf_count then
    ({ q with m_awaiting_buffers := [] }, q.m_awaiting_buffers)
  else
    ({ q with m_awaiting_buffers := q.m_awaiting_buffers.drop max_buf_count },
      bufs ++ q.m_awaiting_buffers.take max_buf_count)

/-- `ws_outgoing_data_t::close_when_done`. -/
def ws_outgoing_data_t.close_when_done (q : ws_outgoing_data_t) : Bool :=
  q.m_close_when_done

/-- `ws_outgoing_data_t::set_close_when_done`. -/
def ws_outgoing_data_t.set_close_when_done (q : ws_outgoing_data_t) :
    ws_outgoing_data_t :=
  { q with m_close_when_done := true }

/-- Modelled from the spec: `raw_resp_output_ctx_t` is declared in
`restinio/impl/raw_resp_output_ctx.hpp`, which is not part of this
excerpt.  Per §4.2 it tracks whether a write is currently in flight and
owns the buffer groups staged for the in-flight write. -/
structure raw_resp_output_ctx_t where
  m_transmitting : Bool
  m_bufs : List Nat
  deriving DecidableEq, Repr

/-- Modelled from the spec: the size of the "bunch" of buffer groups that
`obtain_bufs` pulls from the queue in one step (§4.2); the exact value is
unspecified, only that it is a fixed positive bound. -/
def max_bufs_in_bunch : Nat := 64

/-- `raw_resp_output_ctx_t::transmitting`: true iff a write is currently
outstanding on the socket. -/
def raw_resp_output_ctx_t.transmitting (ctx : raw_resp_output_ctx_t) : Bool :=
  ctx.m_transmitting

/-- Modelled from the spec: `raw_resp_output_ctx_t::obtain_bufs` pulls a
bunch of buffer groups from the queue via `pop_ready_buffers` into the
staging area and reports whether any were obtained (`false` means the
queue was empty); a successful obtain marks the context as
transmitting (§4.2). -/
def raw_resp_output_ctx_t.obtain_bufs (ctx : raw_resp_output_ctx_t)
    (q : ws_outgoing_data_t) :
    raw_resp_output_ctx_t × ws_outgoing_data_t × Bool :=
  let r := q.pop_ready_buffers max_bufs_in_bunch ctx.m_bufs
  (⟨!r.2.isEmpty, r.2⟩, r.1, !r.2.isEmpty)

/-- Modelled from the spec: `raw_resp_output_ctx_t::done` releases the
staged buffers and clears the transmitting flag (§4.2). -/
def raw_resp_output_ctx_t.done (_ctx : raw_resp_output_ctx_t) :
    raw_resp_output_ctx_t :=
  ⟨false, []⟩

/-- The mutable state of `ws_connection_t` relevant to the write/close
path: whether the socket is open, whether the close handler is still
present, the raw output context and the outgoing-data queue. -/
structure ws_connection_state where
  m_socket_is_open : Bool
  m_close_handler : Bool
  m_resp_out_ctx : raw_resp_output_ctx_t
  m_awaiting_buffers : ws_outgoing_data_t
  deriving DecidableEq, Repr

/-- `ws_connection_t::call_close_handler`: invokes the close handler if it
is still present and replaces it with an empty handler. -/
def call_close_handler (reason : String) (st : ws_connection_state) :
    ws_connection_state × List Event :=
  if st.m_close_handler then
    ({ st with m_close_handler := false }, [Event.close_handler_called reason])
  else
    (st, [])

/-- `ws_connection_t::close_impl`: trace log, shutdown both directions
(shutdown errors ignored), then close the socket. -/
def close_impl (st : ws_connection_state) : ws_connection_state × List Event :=
  ({ st with m_socket_is_open := false },
    [Event.log_trace, Event.socket_shutdown, Event.socket_close])

/-- `ws_connection_t::trigger_error_and_close`: logs the lazily built
error message, then invokes the close handler with the given reason. -/
def trigger_error_and_close (reason : String) (st : ws_connection_state) :
    ws_connection_state × List Event :=
  let r := call_close_handler reason st
  (r.1, Event.log_error :: r.2)

/-- `ws_connection_t::init_write_if_necessary`: if not transmitting, try
to obtain buffers; if some were obtained, trace-log and issue the vectored
write; otherwise, if close-when-done is set, invoke the close handler with
"user initiated" and perform `close_impl`. -/
def init_write_if_necessary (st : ws_connection_state) :
    ws_connection_state × List Event :=
  if st.m_resp_out_ctx.transmitting then (st, [])
  else
    let r := st.m_resp_out_ctx.obtain_bufs st.m_awaiting_buffers
    if r.2.2 then
      ({ st with m_resp_out_ctx := r.1, m_awaiting_buffers := r.2.1 },
        [Event.log_trace, Event.socket_write r.1.m_bufs])
    else
      let st1 : ws_connection_state :=
        { st with m_resp_out_ctx := r.1, m_awaiting_buffers := r.2.1 }
      if st1.m_awaiting_buffers.close_when_done then
        let r2 := call_close_handler "user initiated" st1
        let r3 := close_impl r2.1
        (r3.1, r2.2 ++ r3.2)
      else
        (st1, [])

/-- `ws_connection_t::write_data_impl`: warn and return if the socket is
not open or close was already requested; otherwise append the buffers to
the queue and invoke `init_write_if_necessary`. -/
def write_data_impl (bufs : List Nat) (st : ws_connection_state) :
    ws_connection_state × List Event :=
  if !st.m_socket_is_open then
    (st, [Event.log_warn])
  else if st.m_awaiting_buffers.close_when_done then
    (st, [Event.log_warn])
  else
    let a := st.m_awaiting_buffers.append bufs
    let r := init_write_if_necessary { st with m_awaiting_buffers := a.1 }
    (r.1, a.2 ++ r.2)

/-- The error codes `after_write` distinguishes. -/
inductive error_code_t where
  | ok
  | operation_aborted
  | other (msg : String)
  deriving DecidableEq, Repr

/-- `ws_connection_t::after_write`: on success, release buffers via
`done()`, trace-log, and re-invoke `init_write_if_necessary` if the socket
is still open; on `operation_aborted`, do nothing; on any other error,
`trigger_error_and_close` with the error message as the reason. -/
def after_write (ec : error_code_t) (st : ws_connection_state) :
    ws_connection_state × List Event :=
  match ec with
  | .ok =>
    let st1 := { st with m_resp_out_ctx := st.m_resp_out_ctx.done }
    if st1.m_socket_is_open then
      let r := init_write_if_necessary st1
      (r.1, Event.log_trace :: r.2)
    else
      (st1, [Event.log_trace])
  | .operation_aborted => (st, [])
  | .other msg => trigger_error_and_close msg st

/-- `ws_connection_t::graceful_close`: if close was not yet requested, set
the close-when-done flag and invoke `init_write_if_necessary`. -/
def graceful_close (st : ws_connection_state) :
    ws_connection_state × List Event :=
  if st.m_awaiting_buffers.close_when_done then (st, [])
  else
    init_write_if_necessary
      { st with m_awaiting_buffers := st.m_awaiting_buffers.set_close_when_done }

/-- The operations of the connection write/close path, as executed on the
connection strand (`close()` dispatches `graceful_close`, `write_data`
dispatches `write_data_impl`). -/
inductive ConnOp where
  | write_data (bufs : List Nat)
  | init_write
  | after_wr (ec : error_code_t)
  | graceful
  | trigger_error (reason : String)
  | call_close (reason : String)
  deriving Repr

/-- One strand-serialized operation of the connection. -/
def step (st : ws_connection_state) : ConnOp → ws_connection_state × List Event
  | .write_data bufs => write_data_impl bufs st
  | .init_write => init_write_if_necessary st
  | .after_wr ec => after_write ec st
  | .graceful => graceful_close st
  | .trigger_error reason => trigger_error_and_close reason st
  | .call_close reason => call_close_handler reason st

/-- Run a sequence of operations, concatenating their event traces. -/
def run (st : ws_connection_state) :
    List ConnOp → ws_connection_state × List Event
  | [] => (st, [])
  | op :: ops =>
    let r := step st op
    let r2 := run r.1 ops
    (r2.1, r.2 ++ r2.2)

/-- Whether an event is a close-handler invocation. -/
def isCloseEvent : Event → Bool
  | .close_handler_called _ => true
  | _ => false

/-- Number of close-handler invocations in a trace. -/
def closeCount (evs : List Event) : Nat := evs.countP isCloseEvent

/-- 1 if the close handler is still present, 0 if already cleared. -/
def handlerPot (st : ws_connection_state) : Nat :=
  if st.m_close_handler then 1 else 0

/-- Fold a sequence of `append` calls over a queue. -/
def appendAll (q : ws_outgoing_data_t) (bss : List (List Nat)) :
    ws_outgoing_data_t :=
  bss.foldl (fun q bs => (q.append bs).1) q

/-- A fresh, empty outgoing-data queue. -/
def empty_outgoing : ws_outgoing_data_t := ⟨false, []⟩

/-- Run a sequence of `pop_ready_buffers` calls (each with a fresh empty
output container) and concatenate the popped groups. -/
def popSeq (q : ws_outgoing_data_t) :
    List Nat → ws_outgoing_data_t × List Nat
  | [] => (q, [])
  | n :: ns =>
    let r := q.pop_ready_buffers n []
    let r2 := popSeq r.1 ns
    (r2.1, r.2 ++ r2.2)

/-! ### Helper lemmas -/

theorem closeCount_append (a b : List Event) :
    closeCount (a ++ b) = closeCount a + closeCount b := by
  simp [closeCount, List.countP_append]

theorem init_write_preserves_flag (st : ws_connection_state) :
    (init_write_if_necessary st).1.m_awaiting_buffers.m_close_when_done
      = st.m_awaiting_buffers.m_close_when_done := by
  simp [init_write_if_necessary, raw_resp_output_ctx_t.obtain_bufs,
    ws_outgoing_data_t.pop_ready_buffers, ws_outgoing_data_t.close_when_done,
    close_impl, call_close_handler, raw_resp_output_ctx_t.transmitting]
  repeat' split
  all_goals simp_all

theorem graceful_close_sets_flag (st : ws_connection_state) :
    (graceful_close st).1.m_awaiting_buffers.m_close_when_done = true := by
  unfold graceful_close
  split
  · next h => exact h
  · rw [init_write_preserves_flag]
    rfl

/-! ### C2 -/

/-- C2: while a write is in flight (`transmitting() == true`),
`init_write_if_necessary` is a complete no-op: the state, including the
outgoing queue and socket, is unchanged and no event (socket write,
close-handler call, socket close) is emitted. -/
theorem c2_init_write_noop_while_transmitting (st : ws_connection_state)
    (h : st.m_resp_out_ctx.m_transmitting = true) :
    init_write_if_necessary st = (st, []) := by
  unfold init_write_if_necessary raw_resp_output_ctx_t.transmitting
  simp [h]

/-- Witness for C2 at a concrete in-flight state. -/
theorem c2_init_write_noop_while_transmitting_witness :
    init_write_if_necessary ⟨true, true, ⟨true, [5]⟩, ⟨false, [1, 2]⟩⟩
      = (⟨true, true, ⟨true, [5]⟩, ⟨false, [1, 2]⟩⟩, []) :=
  c2_init_write_noop_while_transmitting _ rfl

/-! ### C6 -/

/-- C6: with an empty output container, `pop_ready_buffers max` on a queue
of length `≤ max` removes and returns all elements leaving the queue
empty; on a longer queue it removes and returns exactly the first `max`
elements in FIFO order and leaves the remaining `size - max` elements in
their original relative order. -/
theorem c6_pop_ready_buffers_spec (q : ws_outgoing_data_t) (max : Nat) :
    (q.m_awaiting_buffers.length ≤ max →
      q.pop_ready_buffers max []
        = ({ q with m_awaiting_buffers := [] }, q.m_awaiting_buffers))
    ∧ (max < q.m_awaiting_buffers.length →
      q.pop_ready_buffers max []
          = ({ q with m_awaiting_buffers := q.m_awaiting_buffers.drop max },
            q.m_awaiting_buffers.take max)
        ∧ (q.m_awaiting_buffers.take max).length = max
        ∧ (q.m_awaiting_buffers.drop max).length
            = q.m_awaiting_buffers.length - max
        ∧ q.m_awaiting_buffers.take max ++ q.m_awaiting_buffers.drop max
            = q.m_awaiting_buffers) := by
  constructor
  · intro h
    unfold ws_outgoing_data_t.pop_ready_buffers
    simp [h]
  · intro h
    refine ⟨?_, ?_, ?_, ?_⟩
    · unfold ws_outgoing_data_t.pop_ready_buffers
      simp [Nat.not_le.mpr h, Nat.not_le_of_lt h]
    · exact List.length_take_of_le (Nat.le_of_lt h)
    · exact List.length_drop max q.m_awaiting_buffers
    · exact List.take_append_drop max q.m_awaiting_buffers

/-- Witness for C6: Scenario B, queue `[g1,g2,g3]`, popping 2 then 10. -/
theorem c6_pop_ready_buffers_spec_witness :
    (ws_outgoing_data_t.pop_ready_buffers ⟨false, [1, 2, 3]⟩ 2 []
        = (⟨false, [3]⟩, [1, 2]))
    ∧ (ws_outgoing_data_t.pop_ready_buffers ⟨false, [3]⟩ 10 []
        = (⟨false, []⟩, [3])) :=
  ⟨((c6_pop_ready_buffers_spec ⟨false, [1, 2, 3]⟩ 2).2 (by decide)).1,
    (c6_pop_ready_buffers_spec ⟨false, [3]⟩ 10).1 (by decide)⟩

/-! ### C8 -/

/-- C8: `set_close_when_done` is idempotent on the queue state, and
`graceful_close` on a connection whose close-when-done flag is already set
performs no action at all: the state is unchanged and no event is
emitted. -/
theorem c8_close_idempotent (q : ws_outgoing_data_t)
    (st : ws_connection_state)
    (h : st.m_awaiting_buffers.m_close_when_done = true) :
    q.set_close_when_done.set_close_when_done = q.set_close_when_done
    ∧ graceful_close st = (st, []) := by
  constructor
  · rfl
  · unfold graceful_close ws_outgoing_data_t.close_when_done
    simp [h]

/-- Witness for C8 at a concrete closing state. -/
theorem c8_close_idempotent_witness :
    (ws_outgoing_data_t.set_close_when_done
          (ws_outgoing_data_t.set_close_when_done ⟨false, [1]⟩)
        = ws_outgoing_data_t.set_close_when_done ⟨false, [1]⟩)
    ∧ graceful_close ⟨true, true, ⟨false, []⟩, ⟨true, [7]⟩⟩
        = (⟨true, true, ⟨false, []⟩, ⟨true, [7]⟩⟩, []) :=
  c8_close_idempotent ⟨false, [1]⟩ _ rfl

/-! ### C10 -/

/-- C10: `pop_ready_buffers` treats the caller-supplied output container
asymmetrically: the whole-queue path move-assigns over it (discarding its
previous elements) while the partial path appends after them; at the
concrete output container `[9]` the two paths differ by more than the
popped elements. -/
theorem c10_pop_output_container_asymmetry :
    (∀ (q : ws_outgoing_data_t) (out : List Nat) (max : Nat),
      q.m_awaiting_buffers.length ≤ max →
        q.pop_ready_buffers max out
          = ({ q with m_awaiting_buffers := [] }, q.m_awaiting_buffers))
    ∧ (∀ (q : ws_outgoing_data_t) (out : List Nat) (max : Nat),
      max < q.m_awaiting_buffers.length →
        q.pop_ready_buffers max out
          = ({ q with m_awaiting_buffers := q.m_awaiting_buffers.drop max },
            out ++ q.m_awaiting_buffers.take max))
    ∧ ws_outgoing_data_t.pop_ready_buffers ⟨false, [1, 2]⟩ 2 [9]
        = (⟨false, []⟩, [1, 2])
    ∧ ws_outgoing_data_t.pop_ready_buffers ⟨false, [1, 2, 3]⟩ 2 [9]
        = (⟨false, [3]⟩, [9, 1, 2]) := by
  refine ⟨?_, ?_, by decide, by decide⟩
  · intro q out max h
    unfold ws_outgoing_data_t.pop_ready_buffers
    simp [h]
  · intro q out max h
    unfold ws_outgoing_data_t.pop_ready_buffers
    simp [Nat.not_le.mpr h]

/-- Witness for C10: the two paths at the non-empty output container,
with the whole-queue path discarding the container's prior element and
the partial path keeping it. -/
theorem c10_pop_output_container_asymmetry_witness :
    ws_outgoing_data_t.pop_ready_buffers ⟨false, [1, 2]⟩ 5 [9]
        = (⟨false, []⟩, [1, 2])
    ∧ ws_outgoing_data_t.pop_ready_buffers ⟨false, [1, 2, 3]⟩ 2 [8]
        = (⟨false, [3]⟩, [8, 1, 2]) :=
  ⟨c10_pop_output_container_asymmetry.1 ⟨false, [1, 2]⟩ [9] 5 (by decide),
    c10_pop_output_container_asymmetry.2.1 ⟨false, [1, 2, 3]⟩ [8] 2
      (by decide)⟩

/-! ### C3 -/

/-- C3: with no write in flight, an empty queue and close-when-done set,
`init_write_if_necessary` invokes the close handler exactly once with
reason "user initiated" and then performs socket shutdown followed by
socket close, exactly once; and (teardown-only-here) any state from which
`init_write_if_necessary` emits a socket shutdown is exactly a drained
closing state. -/
theorem c3_drained_close_teardown (st : ws_connection_state)
    (h1 : st.m_resp_out_ctx.m_transmitting = false)
    (h2 : st.m_awaiting_buffers.m_awaiting_buffers = [])
    (h3 : st.m_awaiting_buffers.m_close_when_done = true)
    (h4 : st.m_close_handler = true) :
    (init_write_if_necessary st).2
        = [Event.close_handler_called "user initiated",
          Event.log_trace, Event.socket_shutdown, Event.socket_close]
    ∧ (init_write_if_necessary st).1.m_close_handler = false
    ∧ (init_write_if_necessary st).1.m_socket_is_open = false
    ∧ ∀ st' : ws_connection_state,
        Event.socket_shutdown ∈ (init_write_if_necessary st').2 →
          st'.m_resp_out_ctx.m_transmitting = false
          ∧ st'.m_awaiting_buffers.m_awaiting_buffers = []
          ∧ st'.m_awaiting_buffers.m_close_when_done = true := by
  refine ⟨?_, ?_, ?_, ?_⟩
  · simp [init_write_if_necessary, raw_resp_output_ctx_t.obtain_bufs,
      ws_outgoing_data_t.pop_ready_buffers, ws_outgoing_data_t.close_when_done,
      raw_resp_output_ctx_t.transmitting, call_close_handler, close_impl,
      h1, h2, h3, h4]
  · simp [init_write_if_necessary, raw_resp_output_ctx_t.obtain_bufs,
      ws_outgoing_data_t.pop_ready_buffers, ws_outgoing_data_t.close_when_done,
      raw_resp_output_ctx_t.transmitting, call_close_handler, close_impl,
      h1, h2, h3, h4]
  · simp [init_write_if_necessary, raw_resp_output_ctx_t.obtain_bufs,
      ws_outgoing_data_t.pop_ready_buffers, ws_outgoing_data_t.close_when_done,
      raw_resp_output_ctx_t.transmitting, call_close_handler, close_impl,
      h1, h2, h3, h4]
  · intro st' hmem
    by_cases ht : st'.m_resp_out_ctx.m_transmitting = true
    · simp [init_write_if_necessary, raw_resp_output_ctx_t.transmitting,
        ht] at hmem
    · by_cases hq : st'.m_awaiting_buffers.m_awaiting_buffers = []
      · by_cases hc : st'.m_awaiting_buffers.m_close_when_done = true
        · exact ⟨by simpa using ht, hq, hc⟩
        · simp [init_write_if_necessary, raw_resp_output_ctx_t.obtain_bufs,
            ws_outgoing_data_t.pop_ready_buffers,
            ws_outgoing_data_t.close_when_done,
            raw_resp_output_ctx_t.transmitting, call_close_handler,
            close_impl, ht, hq, hc] at hmem
      · by_cases hlen : st'.m_awaiting_buffers.m_awaiting_buffers.length
            ≤ max_bufs_in_bunch
        · simp [init_write_if_necessary, raw_resp_output_ctx_t.obtain_bufs,
            ws_outgoing_data_t.pop_ready_buffers,
            ws_outgoing_data_t.close_when_done,
            raw_resp_output_ctx_t.transmitting, call_close_handler,
            close_impl, ht, hq, hlen] at hmem
        · have hlen' : ¬ st'.m_awaiting_buffers.m_awaiting_buffers.length
              ≤ 64 := hlen
          have htake :
              List.take 64 st'.m_awaiting_buffers.m_awaiting_buffers ≠ [] := by
            intro hco
            have hco' : (List.take 64
                st'.m_awaiting_buffers.m_awaiting_buffers).length = 0 := by
              rw [hco]
              rfl
            rw [List.length_take] at hco'
            have hz : st'.m_awaiting_buffers.m_awaiting_buffers.length = 0 := by
              omega
            exact hq (List.length_eq_zero.mp hz)
          simp [init_write_if_necessary, raw_resp_output_ctx_t.obtain_bufs,
            ws_outgoing_data_t.pop_ready_buffers,
            ws_outgoing_data_t.close_when_done, max_bufs_in_bunch,
            raw_resp_output_ctx_t.transmitting, call_close_handler,
            close_impl, ht, hq, hlen', htake] at hmem

/-- Witness for C3: Scenario C at a concrete drained closing state. -/
theorem c3_drained_close_teardown_witness :
    (init_write_if_necessary ⟨true, true, ⟨false, []⟩, ⟨true, []⟩⟩).2
      = [Event.close_handler_called "user initiated",
        Event.log_trace, Event.socket_shutdown, Event.socket_close] :=
  (c3_drained_close_teardown ⟨true, true, ⟨false, []⟩, ⟨true, []⟩⟩
    rfl rfl rfl rfl).1

/-! ### C4 -/

/-- C4: `write_data_impl` with the socket not open, or with close-when-done
already requested, is a no-op apart from a warning log: the state
(including the outgoing queue) is unchanged and no other event occurs; in
particular `write_data_impl` right after `graceful_close` behaves this
way. -/
theorem c4_write_after_close_noop (bufs : List Nat)
    (st : ws_connection_state) :
    (st.m_socket_is_open = false →
      write_data_impl bufs st = (st, [Event.log_warn]))
    ∧ (st.m_awaiting_buffers.m_close_when_done = true →
      write_data_impl bufs st = (st, [Event.log_warn]))
    ∧ write_data_impl bufs (graceful_close st).1
        = ((graceful_close st).1, [Event.log_warn]) := by
  refine ⟨?_, ?_, ?_⟩
  · intro h
    simp [write_data_impl, h]
  · intro h
    by_cases hs : st.m_socket_is_open = true
    · simp [write_data_impl, ws_outgoing_data_t.close_when_done, h, hs]
    · have hs' : st.m_socket_is_open = false := by simpa using hs
      simp [write_data_impl, hs']
  · have hf := graceful_close_sets_flag st
    by_cases hs : (graceful_close st).1.m_socket_is_open = true
    · simp [write_data_impl, ws_outgoing_data_t.close_when_done, hf, hs]
    · have hs' : (graceful_close st).1.m_socket_is_open = false := by
        simpa using hs
      simp [write_data_impl, hs']

/-- Witness for C4: Scenario D at a closed-socket state and at a
closing-requested state. -/
theorem c4_write_after_close_noop_witness :
    write_data_impl [4] ⟨false, true, ⟨false, []⟩, ⟨false, [1]⟩⟩
        = (⟨false, true, ⟨false, []⟩, ⟨false, [1]⟩⟩, [Event.log_warn])
    ∧ write_data_impl [4] ⟨true, true, ⟨false, []⟩, ⟨true, [1]⟩⟩
        = (⟨true, true, ⟨false, []⟩, ⟨true, [1]⟩⟩, [Event.log_warn]) :=
  ⟨(c4_write_after_close_noop [4] ⟨false, true, ⟨false, []⟩, ⟨false, [1]⟩⟩).1
      rfl,
    (c4_write_after_close_noop [4] ⟨true, true, ⟨false, []⟩, ⟨true, [1]⟩⟩).2.1
      rfl⟩

/-! ### C5 -/

/-- C5: `after_write` on success releases the in-flight write via `done()`
and re-invokes `init_write_if_necessary` exactly when the socket is still
open; on `operation_aborted` it does nothing (no close-handler call, no
error log); on any other error it invokes `trigger_error_and_close` with
the error's message as the reason. -/
theorem c5_after_write_cases (st : ws_connection_state) (msg : String) :
    after_write error_code_t.ok st
        = (if ({ st with m_resp_out_ctx := st.m_resp_out_ctx.done }
              : ws_connection_state).m_socket_is_open then
            ((init_write_if_necessary
                { st with m_resp_out_ctx := st.m_resp_out_ctx.done }).1,
              Event.log_trace
                :: (init_write_if_necessary
                    { st with m_resp_out_ctx := st.m_resp_out_ctx.done }).2)
          else
            ({ st with m_resp_out_ctx := st.m_resp_out_ctx.done },
              [Event.log_trace]))
    ∧ after_write error_code_t.operation_aborted st = (st, [])
    ∧ after_write (error_code_t.other msg) st
        = trigger_error_and_close msg st := by
  refine ⟨?_, rfl, rfl⟩
  by_cases hs : st.m_socket_is_open = true <;> simp [after_write, hs]

/-! ### C7 -/

theorem append_law (q : ws_outgoing_data_t) (bufs : List Nat) :
    (q.append bufs).1.m_awaiting_buffers = q.m_awaiting_buffers ++ bufs := by
  cases hq : q.m_awaiting_buffers <;> simp [ws_outgoing_data_t.append, hq]

theorem appendAll_buffers (bss : List (List Nat)) :
    ∀ q : ws_outgoing_data_t,
      (appendAll q bss).m_awaiting_buffers
        = q.m_awaiting_buffers ++ bss.flatten := by
  induction bss with
  | nil =>
    intro q
    simp [appendAll]
  | cons bs bss ih =>
    intro q
    have h1 : appendAll q (bs :: bss) = appendAll (q.append bs).1 bss := rfl
    rw [h1, ih, append_law]
    simp [List.flatten]

theorem pop_concat (q : ws_outgoing_data_t) (n : Nat) :
    (q.pop_ready_buffers n []).2
        ++ (q.pop_ready_buffers n []).1.m_awaiting_buffers
      = q.m_awaiting_buffers := by
  unfold ws_outgoing_data_t.pop_ready_buffers
  split
  · simp
  · simp [List.take_append_drop]

theorem popSeq_concat (ns : List Nat) :
    ∀ q : ws_outgoing_data_t,
      (popSeq q ns).2 ++ (popSeq q ns).1.m_awaiting_buffers
        = q.m_awaiting_buffers := by
  induction ns with
  | nil =>
    intro q
    simp [popSeq]
  | cons n ns ih =>
    intro q
    simp only [popSeq, List.append_assoc]
    rw [ih (q.pop_ready_buffers n []).1]
    exact pop_concat q n

/-- C7: FIFO law — starting from an empty queue, after any sequence of
`append` calls, any sequence of `pop_ready_buffers` calls that leaves the
queue empty returns, in concatenation, exactly the concatenation of the
appended sequences in submission order; and each `append` concatenates the
incoming groups after the existing elements (adopting them when the queue
is empty). -/
theorem c7_fifo_law (bss : List (List Nat)) (ns : List Nat)
    (h : (popSeq (appendAll empty_outgoing bss) ns).1.m_awaiting_buffers
      = []) :
    (popSeq (appendAll empty_outgoing bss) ns).2 = bss.flatten
    ∧ ∀ (q : ws_outgoing_data_t) (bufs : List Nat),
        (q.append bufs).1.m_awaiting_buffers
          = q.m_awaiting_buffers ++ bufs := by
  constructor
  · have hc := popSeq_concat ns (appendAll empty_outgoing bss)
    rw [h, List.append_nil] at hc
    rw [hc, appendAll_buffers]
    simp [empty_outgoing]
  · exact append_law

/-- Witness for C7: Scenario A/B shape — append `[1]` then `[2, 3]`,
pop 2 then pop 10, recovering `[1, 2, 3]`. -/
theorem c7_fifo_law_witness :
    (popSeq (appendAll empty_outgoing [[1], [2, 3]]) [2, 10]).2
      = List.flatten [[1], [2, 3]] :=
  (c7_fifo_law [[1], [2, 3]] [2, 10] (by decide)).1

/-! ### C9 -/

theorem init_write_no_assert (st : ws_connection_state) :
    Event.assert_failed ∉ (init_write_if_necessary st).2 := by
  simp [init_write_if_necessary, raw_resp_output_ctx_t.obtain_bufs,
    ws_outgoing_data_t.pop_ready_buffers, ws_outgoing_data_t.close_when_done,
    raw_resp_output_ctx_t.transmitting, call_close_handler, close_impl]
  repeat' split
  all_goals simp_all

theorem cch_no_assert (reason : String) (st : ws_connection_state) :
    Event.assert_failed ∉ (call_close_handler reason st).2 := by
  unfold call_close_handler
  split <;> simp

theorem step_no_assert (st : ws_connection_state) (op : ConnOp) :
    Event.assert_failed ∉ (step st op).2 := by
  cases op with
  | write_data bufs =>
    show Event.assert_failed ∉ (write_data_impl bufs st).2
    unfold write_data_impl
    split
    · simp
    · split
      · simp
      · next hflag =>
        have hni := init_write_no_assert
          { st with m_awaiting_buffers := (st.m_awaiting_buffers.append bufs).1 }
        have hf : st.m_awaiting_buffers.m_close_when_done = false := by
          simpa [ws_outgoing_data_t.close_when_done] using hflag
        have ha : (st.m_awaiting_buffers.append bufs).2 = [] := by
          simp [ws_outgoing_data_t.append, hf]
        simp [ha, hni]
  | init_write => exact init_write_no_assert st
  | after_wr ec =>
    show Event.assert_failed ∉ (after_write ec st).2
    cases ec with
    | ok =>
      by_cases hs : st.m_socket_is_open = true
      · simp [after_write, hs]
        exact init_write_no_assert _
      · simp [after_write, hs]
    | operation_aborted => simp [after_write]
    | other msg =>
      have hc := cch_no_assert msg st
      simp [after_write, trigger_error_and_close, hc]
  | graceful =>
    show Event.assert_failed ∉ (graceful_close st).2
    unfold graceful_close
    split
    · simp
    · exact init_write_no_assert _
  | trigger_error reason =>
    have hc := cch_no_assert reason st
    simp [step, trigger_error_and_close, hc]
  | call_close reason => exact cch_no_assert reason st

/-- C9: in every execution of the connection (any sequence of strand
operations from any state), the `assert( !m_close_when_done )` in
`ws_outgoing_data_t::append` never fires — no `assert_failed` event ever
appears in the trace — while `append` itself does fire it whenever it is
called with close-when-done already set. -/
theorem c9_append_assert_unreachable (st : ws_connection_state)
    (ops : List ConnOp) :
    Event.assert_failed ∉ (run st ops).2
    ∧ ∀ (q : ws_outgoing_data_t) (bufs : List Nat),
        q.m_close_when_done = true →
          (q.append bufs).2 = [Event.assert_failed] := by
  constructor
  · induction ops generalizing st with
    | nil => simp [run]
    | cons op ops ih =>
      have h1 := step_no_assert st op
      have h2 := ih (step st op).1
      simp only [run, List.mem_append]
      intro hco
      cases hco with
      | inl h => exact h1 h
      | inr h => exact h2 h
  · intro q bufs hq
    simp [ws_outgoing_data_t.append, hq]

/-- Witness for C9: a concrete execution that exercises write, graceful
close and a late write (the write-after-close path), with no assertion
failure; and the marker event at a concrete violating `append` call. -/
theorem c9_append_assert_unreachable_witness :
    (Event.assert_failed ∉
      (run ⟨true, true, ⟨false, []⟩, ⟨false, []⟩⟩
        [ConnOp.write_data [1, 2], ConnOp.graceful,
          ConnOp.after_wr error_code_t.ok, ConnOp.write_data [3]]).2)
    ∧ (ws_outgoing_data_t.append ⟨true, [5]⟩ [6]).2
        = [Event.assert_failed] :=
  ⟨(c9_append_assert_unreachable ⟨true, true, ⟨false, []⟩, ⟨false, []⟩⟩
      [ConnOp.write_data [1, 2], ConnOp.graceful,
        ConnOp.after_wr error_code_t.ok, ConnOp.write_data [3]]).1,
    (c9_append_assert_unreachable ⟨true, true, ⟨false, []⟩, ⟨false, []⟩⟩
      []).2 ⟨true, [5]⟩ [6] rfl⟩

/-! ### C1 -/

theorem cch_bound (reason : String) (st : ws_connection_state) :
    closeCount (call_close_handler reason st).2
        + handlerPot (call_close_handler reason st).1
      ≤ handlerPot st := by
  cases h : st.m_close_handler <;>
    simp [call_close_handler, handlerPot, closeCount, isCloseEvent, h]

theorem iwn_bound (st : ws_connection_state) :
    closeCount (init_write_if_necessary st).2
        + handlerPot (init_write_if_necessary st).1
      ≤ handlerPot st := by
  simp [init_write_if_necessary, raw_resp_output_ctx_t.obtain_bufs,
    ws_outgoing_data_t.pop_ready_buffers, ws_outgoing_data_t.close_when_done,
    raw_resp_output_ctx_t.transmitting, call_close_handler, close_impl]
  repeat' split
  all_goals simp_all [closeCount, handlerPot, isCloseEvent]

theorem wdi_bound (bufs : List Nat) (st : ws_connection_state) :
    closeCount (write_data_impl bufs st).2
        + handlerPot (write_data_impl bufs st).1
      ≤ handlerPot st := by
  unfold write_data_impl
  split
  · simp [closeCount, isCloseEvent]
  · split
    · simp [closeCount, isCloseEvent]
    · have h := iwn_bound
        { st with m_awaiting_buffers := (st.m_awaiting_buffers.append bufs).1 }
      have ha : closeCount (st.m_awaiting_buffers.append bufs).2 = 0 := by
        unfold ws_outgoing_data_t.append
        split <;> simp_all [closeCount, isCloseEvent]
      simp only [closeCount_append] at *
      simpa [ha, handlerPot] using h

theorem aw_bound (ec : error_code_t) (st : ws_connection_state) :
    closeCount (after_write ec st).2 + handlerPot (after_write ec st).1
      ≤ handlerPot st := by
  cases ec with
  | ok =>
    by_cases hs : st.m_socket_is_open = true
    · have h := iwn_bound { st with m_resp_out_ctx := st.m_resp_out_ctx.done }
      simp [after_write, hs, closeCount, isCloseEvent, List.countP_cons] at *
      simpa [closeCount, handlerPot] using h
    · simp [after_write, hs, closeCount, isCloseEvent, handlerPot]
  | operation_aborted => simp [after_write, closeCount]
  | other msg =>
    have h := cch_bound msg st
    simp [after_write, trigger_error_and_close, closeCount, isCloseEvent,
      List.countP_cons] at *
    simpa [closeCount] using h

theorem gc_bound (st : ws_connection_state) :
    closeCount (graceful_close st).2 + handlerPot (graceful_close st).1
      ≤ handlerPot st := by
  unfold graceful_close
  split
  · simp [closeCount]
  · exact iwn_bound _

theorem tec_bound (reason : String) (st : ws_connection_state) :
    closeCount (trigger_error_and_close reason st).2
        + handlerPot (trigger_error_and_close reason st).1
      ≤ handlerPot st := by
  have h := cch_bound reason st
  simp only [trigger_error_and_close]
  simpa [closeCount, isCloseEvent, List.countP_cons] using h

theorem step_bound (st : ws_connection_state) (op : ConnOp) :
    closeCount (step st op).2 + handlerPot (step st op).1 ≤ handlerPot st := by
  cases op with
  | write_data bufs => exact wdi_bound bufs st
  | init_write => exact iwn_bound st
  | after_wr ec => exact aw_bound ec st
  | graceful => exact gc_bound st
  | trigger_error reason => exact tec_bound reason st
  | call_close reason => exact cch_bound reason st

theorem run_bound (ops : List ConnOp) :
    ∀ st : ws_connection_state,
      closeCount (run st ops).2 + handlerPot (run st ops).1
        ≤ handlerPot st := by
  induction ops with
  | nil =>
    intro st
    simp [run, closeCount]
  | cons op ops ih =>
    intro st
    have h1 := step_bound st op
    have h2 := ih (step st op).1
    simp only [run, closeCount_append]
    omega

/-- C1: over every sequence of connection operations (explicit closes,
graceful closes, error paths in `after_write`, `trigger_error_and_close`
invocations), the close handler is invoked at most once; and once the
handler has been cleared, every later `call_close_handler` is a no-op. -/
theorem c1_close_handler_at_most_once (st : ws_connection_state)
    (ops : List ConnOp) :
    (st.m_close_handler = true → closeCount (run st ops).2 ≤ 1)
    ∧ (st.m_close_handler = false →
        ∀ reason, call_close_handler reason st = (st, [])) := by
  constructor
  · intro h
    have hb := run_bound ops st
    simp [handlerPot, h] at hb
    omega
  · intro h reason
    simp [call_close_handler, h]

/-- Witness for C1: a concrete run mixing graceful close, an error path
and a late explicit close invokes the handler at most once; and
`call_close_handler` on a cleared handler is a no-op. -/
theorem c1_close_handler_at_most_once_witness :
    closeCount (run ⟨true, true, ⟨false, []⟩, ⟨false, []⟩⟩
        [ConnOp.graceful, ConnOp.trigger_error "boom",
          ConnOp.call_close "again"]).2 ≤ 1
    ∧ call_close_handler "late" ⟨true, false, ⟨false, []⟩, ⟨false, []⟩⟩
        = (⟨true, false, ⟨false, []⟩, ⟨false, []⟩⟩, []) :=
  ⟨(c1_close_handler_at_most_once ⟨true, true, ⟨false, []⟩, ⟨false, []⟩⟩
      [ConnOp.graceful, ConnOp.trigger_error "boom",
        ConnOp.call_close "again"]).1 rfl,
    (c1_close_handler_at_most_once ⟨true, false, ⟨false, []⟩, ⟨false, []⟩⟩
      []).2 rfl "late"⟩

end WsConnection
